import Mathlib

/-!
Verification of the bounded state-graph explorer (`src/deep_explore.py`) and
the window-focus recovery state machine
(`src/utils/fdom/window_focus_manager.py`) of the S14 Computer-Automation
repository, as a shallow embedding in Lean 4.

Python dictionaries are modelled as association lists preserving insertion
order; the external collaborators (FDOM store, element interactor, OS window
API) are modelled as environment records of pure functions / pre-recorded
responses, since the repository treats them as opaque dependencies.
-/

namespace S14

/-! ## String helpers (Python `str.lower()` and the `in` substring test) -/

/-- Lower-casing of a string, `trigger_element_name.lower()`. -/
def strLower (s : String) : String := String.mk (s.data.map Char.toLower)

/-- Boolean test that `p` is an initial segment of `s` (on character lists). -/
def charsPrefixOf : List Char → List Char → Bool
  | [], _ => true
  | _ :: _, [] => false
  | a :: as, b :: bs => a == b && charsPrefixOf as bs

/-- Boolean test that `p` occurs contiguously inside `s` (on character
lists); `charsContains p s` is Python's `p in s` for strings. -/
def charsContains (p : List Char) : List Char → Bool
  | [] => charsPrefixOf p []
  | c :: rest => charsPrefixOf p (c :: rest) || charsContains p rest

/-- Python's substring test `kw in s`. -/
def strContainsSub (s kw : String) : Bool := charsContains kw.toList s.toList

/-! ## Data model of `deep_explore.py` -/

/-- `ExplorationStrategy` (deep_explore.py lines 34-47): immutable
configuration. Fields not consulted by the embedded operations
(`backtrack_on_deadend`, `revisit_states`, `explore_dialogs`,
`explore_menus`, `state_timeout`) are kept for completeness. -/
structure ExplorationStrategy where
  max_depth : Nat := 10
  max_states_per_level : Nat := 50
  max_total_states : Nat := 500
  backtrack_on_deadend : Bool := true
  explore_dialogs : Bool := true
  explore_menus : Bool := true
  explore_context_menus : Bool := true
  revisit_states : Bool := false
  safety_timeouts : Bool := true
  state_timeout : Nat := 30
  total_timeout : Nat := 7200
  deriving Repr, DecidableEq

/-- `ExplorationState` (deep_explore.py lines 49-61). `discovered_at`
(a wall-clock timestamp used only for reporting) is dropped. -/
structure ExplorationState where
  state_id : String
  depth : Nat
  parent_state : Option String
  trigger_element : Option String
  element_count : Nat
  explored : Bool := false
  is_deadend : Bool := false
  is_dialog : Bool := false
  is_menu : Bool := false
  deriving Repr, DecidableEq

/-- The statistics counters of `DeepExplorer.stats` consulted or written by
the embedded operations (deep_explore.py lines 80-94). -/
structure Stats where
  total_states_discovered : Nat := 0
  total_elements_discovered : Nat := 0
  total_interactions : Nat := 0
  successful_interactions : Nat := 0
  failed_interactions : Nat := 0
  dialogs_discovered : Nat := 0
  menus_discovered : Nat := 0
  deadends_found : Nat := 0
  max_depth_reached : Nat := 0
  deriving Repr, DecidableEq

/-- Result of `element_interactor.click_element` (external collaborator).
`new_state_id` is the id reported when `state_changed` is true. -/
structure InteractionResult where
  success : Bool
  state_changed : Bool
  new_state_id : String
  error_message : Option String := none
  deriving Repr, DecidableEq

/-- A click either returns an `InteractionResult` or raises an exception
(caught at deep_explore.py line 351). -/
inductive ClickOutcome where
  | ok (r : InteractionResult)
  | exn
  deriving Repr, DecidableEq

/-- The FDOM node data read by `_explore_element_strategically`
(deep_explore.py lines 307-312): display name and type tag. -/
structure FdomNode where
  g_icon_name : String
  g_type : String
  deriving Repr, DecidableEq

/-- External collaborators of the exploration engine: the FDOM store,
the element interactor and the pending-node set, modelled as pure
responses. `cost e` is the wall-clock time consumed by interacting with
element `e` (covering the click and the 1 s stabilisation sleep). -/
structure Env where
  initial_state : String
  fdomHasState : String → Bool
  fdomNodeCount : String → Nat
  pendingElements : String → List String
  findNode : String → Option FdomNode
  click : String → ClickOutcome
  navigateOk : String → Bool
  cost : String → Nat

/-- The mutable run context of a `DeepExplorer` object (deep_explore.py
lines 68-94): registry, graph, queue, statistics, the interactor's current
position, and elapsed wall-clock seconds since the start of the run.
`processed_log` is a ghost history variable recording the queue entries
actually processed by the main loop; no operation reads it. -/
structure DeepExplorer where
  strategy : ExplorationStrategy
  discovered_states : List (String × ExplorationState) := []
  exploration_graph : List (String × List String) := []
  exploration_queue : List (String × Nat) := []
  stats : Stats := {}
  current_pos : String := ""
  elapsed : Nat := 0
  processed_log : List (String × Nat) := []

/-! ## Registry primitives (Python dict operations) -/

/-- `state_id in self.discovered_states` (dict key membership). -/
def containsState (ds : List (String × ExplorationState)) (sid : String) : Bool :=
  ds.any (fun p => p.1 == sid)

/-- `self.discovered_states[state_id]`, as an `Option`. -/
def lookupState (ds : List (String × ExplorationState)) (sid : String) :
    Option ExplorationState :=
  match ds.find? (fun p => p.1 == sid) with
  | some p => some p.2
  | none => none

/-- In-place mutation of the record stored under `sid`
(e.g. `state.is_dialog = True`). -/
def updateState (ds : List (String × ExplorationState)) (sid : String)
    (f : ExplorationState → ExplorationState) : List (String × ExplorationState) :=
  ds.map (fun p => if p.1 == sid then (p.1, f p.2) else p)

/-- `len([s for s in self.discovered_states.values() if s.depth == depth])`
(deep_explore.py line 391). -/
def countAtDepth (ds : List (String × ExplorationState)) (d : Nat) : Nat :=
  (ds.filter (fun p => p.2.depth == d)).length

/-- `self.exploration_graph[parent].append(child)` on a
`defaultdict(list)`: append to the entry of `parent` (keys are unique in a
Python dict, so the first matching entry is the entry), creating it if
absent. -/
def graphAppend : List (String × List String) → String → String →
    List (String × List String)
  | [], parent, child => [(parent, [child])]
  | p :: rest, parent, child =>
    if p.1 == parent then (p.1, p.2 ++ [child]) :: rest
    else p :: graphAppend rest parent child

/-! ## Engine operations -/

/-- `DeepExplorer._register_new_state` (deep_explore.py lines 362-396).
Registers unconditionally once the id is new; the enqueue test
(lines 390-392) runs after insertion, so the width count includes the
state just registered. -/
def register_new_state (env : Env) (ex : DeepExplorer)
    (state_id parent_state_id trigger_element : String) (depth : Nat) :
    DeepExplorer :=
  if containsState ex.discovered_states state_id then ex
  else
    let element_count :=
      if env.fdomHasState state_id then env.fdomNodeCount state_id else 0
    let new_state : ExplorationState :=
      { state_id := state_id, depth := depth,
        parent_state := some parent_state_id,
        trigger_element := some trigger_element,
        element_count := element_count }
    let ds := ex.discovered_states ++ [(state_id, new_state)]
    let g := graphAppend ex.exploration_graph parent_state_id state_id
    let q :=
      if depth ≤ ex.strategy.max_depth &&
          countAtDepth ds depth < ex.strategy.max_states_per_level then
        ex.exploration_queue ++ [(state_id, depth)]
      else ex.exploration_queue
    { ex with
      discovered_states := ds
      exploration_graph := g
      exploration_queue := q
      stats := { ex.stats with
        total_states_discovered := ex.stats.total_states_discovered + 1
        total_elements_discovered :=
          ex.stats.total_elements_discovered + element_count } }

/-- The dialog keyword set (deep_explore.py line 409). -/
def dialog_keywords : List String := ["dialog", "popup", "modal", "alert", "confirm"]

/-- The menu keyword set (deep_explore.py line 414). -/
def menu_keywords : List String := ["menu", "dropdown", "submenu", "context"]

/-- `DeepExplorer._classify_new_state` (deep_explore.py lines 398-417).
The menu test is an `elif` of the dialog test: a name matching a dialog
keyword is never also classified as a menu. `trigger_element_type` is
accepted but unused, as in the source. -/
def classify_new_state (ex : DeepExplorer)
    (state_id trigger_element_name _trigger_element_type : String) :
    DeepExplorer :=
  if containsState ex.discovered_states state_id then
    let trigger_name_lower := strLower trigger_element_name
    if dialog_keywords.any (fun kw => strContainsSub trigger_name_lower kw) then
      { ex with
        discovered_states :=
          updateState ex.discovered_states state_id
            (fun s => { s with is_dialog := true })
        stats := { ex.stats with
          dialogs_discovered := ex.stats.dialogs_discovered + 1 } }
    else if menu_keywords.any (fun kw => strContainsSub trigger_name_lower kw) then
      { ex with
        discovered_states :=
          updateState ex.discovered_states state_id
            (fun s => { s with is_menu := true })
        stats := { ex.stats with
          menus_discovered := ex.stats.menus_discovered + 1 } }
    else ex
  else ex

/-- `DeepExplorer._check_time_limit` (deep_explore.py lines 443-453): true
while exploration may continue. The `exploration_start_time` guard of the
source is always taken during a run (`run_deep_exploration` sets the start
time first), so elapsed time is tracked directly. -/
def check_time_limit (ex : DeepExplorer) : Bool :=
  !ex.strategy.safety_timeouts || ex.elapsed < ex.strategy.total_timeout

/-- Statistics increment helpers for `_explore_element_strategically`. -/
def bumpFailed (ex : DeepExplorer) : DeepExplorer :=
  { ex with stats := { ex.stats with
      failed_interactions := ex.stats.failed_interactions + 1 } }

/-- `DeepExplorer._explore_element_strategically` (deep_explore.py
lines 304-353). `_monitor_focus_status` and
`_try_context_menu_interaction` only read state / log and are omitted as
registry no-ops; a successful state-changing click moves the external
interactor's position to the new state. -/
def explore_element_strategically (env : Env) (ex : DeepExplorer)
    (element_id current_state_id : String) (depth : Nat) : DeepExplorer :=
  match env.findNode element_id with
  | none => ex
  | some node =>
    let element_name := node.g_icon_name
    let ex := { ex with stats := { ex.stats with
        total_interactions := ex.stats.total_interactions + 1 } }
    match env.click element_id with
    | .exn => bumpFailed ex
    | .ok result =>
      if result.success then
        let ex := { ex with stats := { ex.stats with
            successful_interactions := ex.stats.successful_interactions + 1 } }
        if result.state_changed then
          let new_state_id := result.new_state_id
          let ex := register_new_state env ex new_state_id current_state_id
            element_id (depth + 1)
          let ex := classify_new_state ex new_state_id element_name node.g_type
          { ex with current_pos := new_state_id }
        else ex
      else bumpFailed ex

/-- The per-element loop of `_explore_state_comprehensively`
(deep_explore.py lines 295-302): time limit checked before each element,
1 s stabilisation sleep (plus the interaction's own duration `env.cost`)
after each. -/
def explore_elements (env : Env) (state_id : String) (depth : Nat) :
    List String → DeepExplorer → DeepExplorer
  | [], ex => ex
  | element_id :: rest, ex =>
    if check_time_limit ex then
      let ex := explore_element_strategically env ex element_id state_id depth
      let ex := { ex with elapsed := ex.elapsed + env.cost element_id + 1 }
      explore_elements env state_id depth rest ex
    else ex

/-- `DeepExplorer._explore_state_comprehensively` (deep_explore.py
lines 267-302). Navigation failure returns before the state is marked
explored; an empty pending set marks the state a deadend. -/
def explore_state_comprehensively (env : Env) (ex : DeepExplorer)
    (state_id : String) (depth : Nat) : DeepExplorer :=
  if ex.current_pos != state_id && !env.navigateOk state_id then ex
  else
    let ex := { ex with current_pos := state_id }
    let ex := { ex with
      discovered_states := updateState ex.discovered_states state_id
        (fun s => { s with explored := true }) }
    let pending := env.pendingElements state_id
    if pending.isEmpty then
      { ex with
        discovered_states := updateState ex.discovered_states state_id
          (fun s => { s with is_deadend := true })
        stats := { ex.stats with
          deadends_found := ex.stats.deadends_found + 1 } }
    else
      explore_elements env state_id depth pending ex

/-- The main loop of `DeepExplorer._execute_deep_exploration`
(deep_explore.py lines 246-263), with fuel bounding the number of
iterations (the source terminates through its budget conditions; fuel
makes the recursion structural). Processed entries are appended to the
ghost `processed_log`. -/
def explore_loop (env : Env) : Nat → DeepExplorer → DeepExplorer
  | 0, ex => ex
  | fuel + 1, ex =>
    match ex.exploration_queue with
    | [] => ex
    | (current_state_id, depth) :: rest =>
      if ex.stats.total_states_discovered < ex.strategy.max_total_states &&
          check_time_limit ex then
        let ex := { ex with exploration_queue := rest }
        if depth > ex.strategy.max_depth then
          explore_loop env fuel ex
        else
          let ex := { ex with
            processed_log := ex.processed_log ++ [(current_state_id, depth)] }
          let ex := explore_state_comprehensively env ex current_state_id depth
          let ex := { ex with stats := { ex.stats with
              max_depth_reached := max ex.stats.max_depth_reached depth } }
          explore_loop env fuel ex
      else ex

/-- `DeepExplorer._discover_initial_state` (deep_explore.py lines 197-232),
run context after successful initialisation: the interactor's current
state registered at depth 0 and enqueued. -/
def initial_explorer (env : Env) (strategy : ExplorationStrategy) :
    DeepExplorer :=
  let s0 := env.initial_state
  let element_count := env.fdomNodeCount s0
  { strategy := strategy
    discovered_states :=
      [(s0, { state_id := s0, depth := 0, parent_state := none,
              trigger_element := none, element_count := element_count })]
    exploration_queue := [(s0, 0)]
    stats := { total_states_discovered := 1
               total_elements_discovered := element_count }
    current_pos := s0 }

/-- The report dictionary produced by `_generate_exploration_report` /
`_create_failure_result` (deep_explore.py lines 481-542 and 631-646),
restricted to the fields the specification constrains. The failure
dictionary carries no graph key; it is modelled as the empty graph. -/
structure ExplorationReport where
  success : Bool
  error : Option String := none
  states : List (String × ExplorationState) := []
  graph : List (String × List String) := []
  total_states_discovered : Nat := 0
  total_interactions : Nat := 0
  deriving Repr, DecidableEq

/-- `DeepExplorer._generate_exploration_report` (deep_explore.py
lines 481-542): always `success := true`, snapshotting the whole registry
and graph. -/
def generate_exploration_report (ex : DeepExplorer) : ExplorationReport :=
  { success := true
    error := none
    states := ex.discovered_states
    graph := ex.exploration_graph
    total_states_discovered := ex.stats.total_states_discovered
    total_interactions := ex.stats.total_interactions }

/-- `DeepExplorer._create_failure_result` (deep_explore.py lines 631-646):
`success := false` with the captured message and a reduced registry
snapshot. -/
def create_failure_result (ex : DeepExplorer) (error_message : String) :
    ExplorationReport :=
  { success := false
    error := some error_message
    states := ex.discovered_states
    total_states_discovered := ex.stats.total_states_discovered
    total_interactions := ex.stats.total_interactions }

/-- How a run of `run_deep_exploration` ends: the loop runs to
completion within its budgets; a `KeyboardInterrupt` arrives after
`steps` loop iterations; or an unexpected exception with message `msg`
escapes after `steps` loop iterations. -/
inductive RunOutcome where
  | completed
  | interrupted (steps : Nat)
  | toplevelExn (steps : Nat) (msg : String)

/-- `DeepExplorer.run_deep_exploration` (deep_explore.py lines 112-144):
phases 1-2 (external initialisation and initial-state discovery) either
fail fatally with a fixed message, or yield the initial run context; the
exploration loop then ends by budget, interruption, or a top-level
exception, each handled by exactly one `except` arm of the source. -/
def run_deep_exploration (env : Env) (strategy : ExplorationStrategy)
    (init_ok discover_ok : Bool) (outcome : RunOutcome) (fuel : Nat) :
    ExplorationReport :=
  if !init_ok then
    create_failure_result { strategy := strategy } "Application initialization failed"
  else if !discover_ok then
    create_failure_result { strategy := strategy } "Initial state discovery failed"
  else
    let ex0 := initial_explorer env strategy
    match outcome with
    | .completed => generate_exploration_report (explore_loop env fuel ex0)
    | .interrupted steps => generate_exploration_report (explore_loop env steps ex0)
    | .toplevelExn steps msg => create_failure_result (explore_loop env steps ex0) msg

/-! ## Data model of `window_focus_manager.py` -/

/-- Window geometry as tracked in `last_known_position`
(window_focus_manager.py lines 195-213). -/
structure WindowGeom where
  x : Int
  y : Int
  width : Int
  height : Int
  deriving Repr, DecidableEq

/-- The window data returned by `gui_api.get_window_info`
(external collaborator): native handle, geometry and optional title. -/
structure WindowInfo where
  hwnd : Nat
  geom : WindowGeom
  title : Option String := none
  deriving Repr, DecidableEq

/-- The mutable fields of `WindowFocusManager`
(window_focus_manager.py lines 15-31). -/
structure FocusState where
  focus_verification_enabled : Bool := true
  auto_recovery_enabled : Bool := true
  focus_check_interval : Nat := 3
  last_focus_check : Nat := 0
  focus_failure_count : Nat := 0
  max_focus_failures : Nat := 3
  expected_window_id : Option String := none
  expected_window_title : Option String := none
  last_known_position : Option WindowGeom := none
  deriving Repr, DecidableEq

/-- OS and application responses observed during one call to
`ensure_target_window_focused`, pre-recorded per call site. The `*_exn`
flags model an exception escaping the corresponding `try` block
(window_focus_manager.py lines 82, 127, 167). -/
structure FocusEnv where
  now : Nat
  app_window : Option String := some "w"
  check_exn : Bool := false
  window_info : Option WindowInfo := none
  fg_initial : Bool := false
  recovery_exn : Bool := false
  smart_fg_ok : Bool := false
  fg_after_smart : Bool := false
  alt_exn : Bool := false
  focus_cmd_ok : Bool := false
  fg_after_focus : Bool := false
  window_info_for_click : Option WindowInfo := none
  fg_after_click : Bool := false
  fresh_window_info : Option WindowInfo := none
  restart_available : Bool := false
  restart_ok : Bool := false
  deriving Repr, DecidableEq

/-- Outcome of one call: the returned boolean, the tracker state after the
call, and a ghost count of external OS/application calls performed
(foreground queries, window-info queries, focus commands, clicks,
refreshes, restarts). -/
structure FocusCallResult where
  result : Bool
  state : FocusState
  os_queries : Nat
  deriving Repr, DecidableEq

/-- The `failure_type` strings passed to `_handle_focus_failure`. -/
inductive FailureType where
  | window_not_found
  | check_exception
  | recovery_exception
  | alternative_methods_exception
  | all_methods_failed
  deriving Repr, DecidableEq

/-- `WindowFocusManager._update_window_state_tracking`
(window_focus_manager.py lines 195-213). -/
def update_window_state_tracking (st : FocusState) (wi : WindowInfo) :
    FocusState :=
  let st := { st with last_known_position := some wi.geom }
  match wi.title with
  | some t => { st with expected_window_title := some t }
  | none => st

/-- `WindowFocusManager._handle_focus_failure`
(window_focus_manager.py lines 215-244): increment the failure count;
bail out if auto-recovery is off; disable verification permanently at
`max_focus_failures`; otherwise attempt a last-resort application restart
for the two terminal failure kinds. -/
def handle_focus_failure (env : FocusEnv) (failure_type : FailureType)
    (st : FocusState) (queries : Nat) : FocusCallResult :=
  let st := { st with focus_failure_count := st.focus_failure_count + 1 }
  if !st.auto_recovery_enabled then
    ⟨false, st, queries⟩
  else if st.focus_failure_count ≥ st.max_focus_failures then
    ⟨false, { st with focus_verification_enabled := false }, queries⟩
  else if failure_type == .window_not_found || failure_type == .all_methods_failed then
    if env.restart_available then
      if env.restart_ok then
        ⟨true, { st with focus_failure_count := 0 }, queries + 1⟩
      else
        ⟨false, st, queries + 1⟩
    else
      ⟨false, st, queries⟩
  else
    ⟨false, st, queries⟩

/-- `WindowFocusManager._refresh_window_coordinates_after_focus`
(window_focus_manager.py lines 171-193): refresh the window API and
re-read the geometry into the tracked state; two external calls. -/
def refresh_window_coordinates_after_focus (env : FocusEnv)
    (st : FocusState) (queries : Nat) : FocusState × Nat :=
  match env.fresh_window_info with
  | some wi => (update_window_state_tracking st wi, queries + 2)
  | none => (st, queries + 2)

/-- `WindowFocusManager._try_alternative_focus_methods`
(window_focus_manager.py lines 131-169): the direct focus command, then
the synthetic title-bar click computed from the freshly queried window
geometry; success paths reset the failure count without refreshing the
tracked geometry. -/
def try_alternative_focus_methods (env : FocusEnv) (st : FocusState)
    (queries : Nat) : FocusCallResult :=
  if env.alt_exn then
    handle_focus_failure env .alternative_methods_exception st queries
  else
    if env.focus_cmd_ok && env.fg_after_focus then
      ⟨true, { st with focus_failure_count := 0 },
        queries + (if env.focus_cmd_ok then 2 else 1)⟩
    else
      let queries := queries + (if env.focus_cmd_ok then 2 else 1)
      match env.window_info_for_click with
      | some wi =>
        let _center_x := wi.geom.x + wi.geom.width / 2
        let _title_bar_y := wi.geom.y + 20
        let queries := queries + 3
        if env.fg_after_click then
          ⟨true, { st with focus_failure_count := 0 }, queries⟩
        else
          handle_focus_failure env .all_methods_failed st queries
      | none =>
        handle_focus_failure env .all_methods_failed st (queries + 1)

/-- `WindowFocusManager._recover_window_focus`
(window_focus_manager.py lines 96-129): the smart-foreground command
first; on a confirmed match it resets the failure count and refreshes the
tracked geometry; otherwise it falls through to the alternative methods. -/
def recover_window_focus (env : FocusEnv) (st : FocusState)
    (queries : Nat) : FocusCallResult :=
  if env.recovery_exn then
    handle_focus_failure env .recovery_exception st queries
  else
    let queries := queries + 1
    if env.smart_fg_ok then
      let queries := queries + 1
      if env.fg_after_smart then
        let st := { st with focus_failure_count := 0 }
        let (st, queries) := refresh_window_coordinates_after_focus env st queries
        ⟨true, st, queries⟩
      else
        try_alternative_focus_methods env st queries
    else
      try_alternative_focus_methods env st queries

/-- `WindowFocusManager.ensure_target_window_focused`
(window_focus_manager.py lines 33-84): the entry point of the focus state
machine. Returns immediately when verification is disabled or the check
interval has not elapsed; otherwise verifies the foreground window and
recovers on a mismatch. -/
def ensure_target_window_focused (env : FocusEnv) (force_check : Bool)
    (st : FocusState) : FocusCallResult :=
  if !st.focus_verification_enabled then
    ⟨true, st, 0⟩
  else if !force_check && env.now - st.last_focus_check < st.focus_check_interval then
    ⟨true, st, 0⟩
  else
    let st := { st with last_focus_check := env.now }
    if env.check_exn then
      handle_focus_failure env .check_exception st 0
    else
      match env.app_window with
      | none => ⟨false, st, 0⟩
      | some window_id =>
        let st := { st with expected_window_id := some window_id }
        match env.window_info with
        | none => handle_focus_failure env .window_not_found st 1
        | some wi =>
          if env.fg_initial then
            ⟨true, update_window_state_tracking
              { st with focus_failure_count := 0 } wi, 2⟩
          else
            recover_window_focus env st 2

/-- `WindowFocusManager.prepare_for_interaction`
(window_focus_manager.py lines 262-276): a forced check plus a settle
delay. -/
def prepare_for_interaction (env : FocusEnv) (st : FocusState) :
    FocusCallResult :=
  ensure_target_window_focused env true st

/-- `WindowFocusManager.prepare_for_screenshot`
(window_focus_manager.py lines 246-260): a forced check plus a longer
settle delay. -/
def prepare_for_screenshot (env : FocusEnv) (st : FocusState) :
    FocusCallResult :=
  ensure_target_window_focused env true st

/-! ## Derived observations used by the verification -/

/-- Number of times `sid` occurs across all child lists of the exploration
graph: `sid` has at most one parent exactly when this is at most 1 for
every graph reachable in a run. -/
def childOccurrences (sid : String) (g : List (String × List String)) : Nat :=
  (g.map (fun p => (p.2.filter (fun c => c == sid)).length)).sum

/-- A run-context well-formedness fact maintained by the engine: the
`total_states_discovered` counter mirrors the registry size. -/
def statsSynced (ex : DeepExplorer) : Prop :=
  ex.stats.total_states_discovered = ex.discovered_states.length

/-- Graph well-formedness maintained by the engine: every state id occurs
at most once across all child lists (at most one parent), and any id that
occurs as a child is registered. -/
def GraphInv (ex : DeepExplorer) : Prop :=
  ∀ sid, childOccurrences sid ex.exploration_graph ≤ 1 ∧
    (1 ≤ childOccurrences sid ex.exploration_graph →
      containsState ex.discovered_states sid = true)

/-! ## Concrete run fragments used by counterexamples and witnesses -/

/-- An inert environment: no FDOM states, no pending elements, every click
raises. -/
def envInert : Env :=
  { initial_state := "s0"
    fdomHasState := fun _ => false
    fdomNodeCount := fun _ => 0
    pendingElements := fun _ => []
    findNode := fun _ => none
    click := fun _ => .exn
    navigateOk := fun _ => true
    cost := fun _ => 0 }

/-- A root state `s0` whose three pending elements each open a distinct new
state on a successful click. -/
def envFanOut : Env :=
  { initial_state := "s0"
    fdomHasState := fun _ => false
    fdomNodeCount := fun _ => 0
    pendingElements := fun s => if s == "s0" then ["s0::e1", "s0::e2", "s0::e3"] else []
    findNode := fun e => some { g_icon_name := e, g_type := "icon" }
    click := fun e => .ok { success := true, state_changed := true, new_state_id := "st" ++ e }
    navigateOk := fun _ => true
    cost := fun _ => 0 }

/-- Run context for the classification counterexample: the initial state
plus one child `s1` discovered from it. -/
def exClassify : DeepExplorer :=
  register_new_state envInert (initial_explorer envInert {}) "s1" "s0" "s0::e1" 1

/-- Width-bound counterexample: `max_states_per_level := 1` and two
children discovered at depth 1. -/
def exWidth0 : DeepExplorer := initial_explorer envInert { max_states_per_level := 1 }

/-- `exWidth0` after registering the first depth-1 child. -/
def exWidth1 : DeepExplorer := register_new_state envInert exWidth0 "c1" "s0" "s0::e1" 1

/-- `exWidth1` after registering a second depth-1 child. -/
def exWidth2 : DeepExplorer := register_new_state envInert exWidth1 "c2" "s0" "s0::e2" 1

/-- Total-bound counterexample: a run over `envFanOut` with
`max_total_states := 2`. -/
def exTotal : DeepExplorer :=
  explore_loop envFanOut 5 (initial_explorer envFanOut { max_total_states := 2 })

/-- Width-bound counterexample at run level: a run over `envFanOut` with
`max_states_per_level := 1`. -/
def exWidthRun : DeepExplorer :=
  explore_loop envFanOut 5 (initial_explorer envFanOut { max_states_per_level := 1 })

/-- A focus environment in which the foreground check mismatches and every
recovery method fails (`smart_foreground` refused, focus command refused,
no window info for the click, restart unavailable). -/
def envFocusAllFail : FocusEnv :=
  { now := 100
    window_info := some { hwnd := 1, geom := ⟨0, 0, 100, 100⟩ } }

/-- A focus environment in which the smart-foreground method fails but the
direct focus command succeeds and is confirmed, while the window's current
geometry differs from the cached one. -/
def envFocusCmdOnly : FocusEnv :=
  { now := 100
    window_info := some { hwnd := 1, geom := ⟨10, 10, 300, 200⟩ }
    focus_cmd_ok := true
    fg_after_focus := true }

/-- A tracker state holding stale cached bounds. -/
def stStale : FocusState := { last_known_position := some ⟨0, 0, 100, 100⟩ }

/-- A fresh tracker state (constructor defaults of
`WindowFocusManager.__init__`). -/
def stFresh : FocusState := {}

/-- First, second, third and fourth forced calls against
`envFocusAllFail`, starting from a fresh tracker. -/
def focusCall1 : FocusCallResult := ensure_target_window_focused envFocusAllFail true stFresh

/-- Second consecutive failing call. -/
def focusCall2 : FocusCallResult := ensure_target_window_focused envFocusAllFail true focusCall1.state

/-- Third consecutive failing call: reaches `max_focus_failures`. -/
def focusCall3 : FocusCallResult := ensure_target_window_focused envFocusAllFail true focusCall2.state

/-- Fourth call: the tracker is disabled. -/
def focusCall4 : FocusCallResult := ensure_target_window_focused envFocusAllFail true focusCall3.state

/-- A fresh tracker with automatic recovery turned off. -/
def stNoAuto : FocusState := { auto_recovery_enabled := false }

/-- Iterated failing calls with auto-recovery off. -/
def focusNoAutoCalls : Nat → FocusState
  | 0 => stNoAuto
  | n + 1 => (ensure_target_window_focused envFocusAllFail true (focusNoAutoCalls n)).state

/-! ## Registry lemmas -/

theorem lookupState_cons (k : String) (v : ExplorationState)
    (rest : List (String × ExplorationState)) (sid : String) :
    lookupState ((k, v) :: rest) sid =
      (if (k == sid) = true then some v else lookupState rest sid) := by
  by_cases h : (k == sid) = true
  · simp [lookupState, List.find?, h]
  · have h' : (k == sid) = false := by simpa using h
    simp [lookupState, List.find?, h']

theorem lookupState_updateState (ds : List (String × ExplorationState))
    (sid : String) (f : ExplorationState → ExplorationState) :
    lookupState (updateState ds sid f) sid = (lookupState ds sid).map f := by
  induction ds with
  | nil => rfl
  | cons p rest ih =>
    obtain ⟨k, v⟩ := p
    rw [show updateState ((k, v) :: rest) sid f =
      (if (k == sid) = true then (k, f v) else (k, v)) :: updateState rest sid f from rfl]
    by_cases h : (k == sid) = true
    · rw [if_pos h, lookupState_cons, lookupState_cons, if_pos h, if_pos h]
      rfl
    · rw [if_neg h, lookupState_cons, lookupState_cons, if_neg h, if_neg h]
      exact ih

theorem lookupState_some_contains {ds : List (String × ExplorationState)}
    {sid : String} {st : ExplorationState}
    (h : lookupState ds sid = some st) : containsState ds sid = true := by
  induction ds with
  | nil => simp [lookupState] at h
  | cons p rest ih =>
    by_cases hp : (p.1 == sid) = true
    · simp [containsState, hp]
    · simp only [lookupState, List.find?, hp] at h
      simp only [containsState, List.any_cons, hp, Bool.false_or]
      exact ih h

/-! ## Claim C1: dialog/menu classification -/

/-- C1, counterexample: the trigger name `"DialogMenu"` matches a keyword
of both sets, yet `_classify_new_state` leaves `is_menu` false, because
the menu test is an `elif` of the dialog test — the two matches are not
independent as claimed. -/
theorem classify_both_keyword_sets_counterexample :
    dialog_keywords.any (fun kw => strContainsSub (strLower "DialogMenu") kw) = true ∧
    menu_keywords.any (fun kw => strContainsSub (strLower "DialogMenu") kw) = true ∧
    (lookupState (classify_new_state exClassify "s1" "DialogMenu" "icon").discovered_states
        "s1").map (fun s => (s.is_dialog, s.is_menu)) = some (true, false) :=
  ⟨rfl, rfl, rfl⟩

/-- C1, amended: classification of a newly discovered state tests the
triggering element's display name case-insensitively against the dialog
keywords first; only when no dialog keyword matches does it test the menu
keywords, so a name matching both sets sets `is_dialog` only, and a name
matching neither leaves the state unchanged. -/
theorem classify_dialog_priority (ex : DeepExplorer) (sid name ty : String)
    (st : ExplorationState)
    (hlook : lookupState ex.discovered_states sid = some st) :
    (dialog_keywords.any (fun kw => strContainsSub (strLower name) kw) = true →
      lookupState (classify_new_state ex sid name ty).discovered_states sid =
        some { st with is_dialog := true }) ∧
    (dialog_keywords.any (fun kw => strContainsSub (strLower name) kw) = false →
      menu_keywords.any (fun kw => strContainsSub (strLower name) kw) = true →
      lookupState (classify_new_state ex sid name ty).discovered_states sid =
        some { st with is_menu := true }) ∧
    (dialog_keywords.any (fun kw => strContainsSub (strLower name) kw) = false →
      menu_keywords.any (fun kw => strContainsSub (strLower name) kw) = false →
      classify_new_state ex sid name ty = ex) := by
  have hc : containsState ex.discovered_states sid = true :=
    lookupState_some_contains hlook
  refine ⟨fun hd => ?_, fun hd hm => ?_, fun hd hm => ?_⟩
  · simp [classify_new_state, hc, hd, lookupState_updateState, hlook]
  · simp [classify_new_state, hc, hd, hm, lookupState_updateState, hlook]
  · simp [classify_new_state, hc, hd, hm]

/-- Witness for `classify_dialog_priority`: a trigger element named
`"ConfirmDialog"` marks the discovered child `s1` as a dialog and not a
menu. -/
theorem classify_dialog_priority_witness :
    lookupState (classify_new_state exClassify "s1" "ConfirmDialog" "icon").discovered_states
        "s1" =
      some { state_id := "s1", depth := 1, parent_state := some "s0",
             trigger_element := some "s0::e1", element_count := 0,
             is_dialog := true } :=
  (classify_dialog_priority exClassify "s1" "ConfirmDialog" "icon"
      { state_id := "s1", depth := 1, parent_state := some "s0",
        trigger_element := some "s0::e1", element_count := 0 } rfl).1 rfl

/-! ## Claim C2: width bound -/

theorem countAtDepth_append (ds ds' : List (String × ExplorationState)) (d : Nat) :
    countAtDepth (ds ++ ds') d = countAtDepth ds d + countAtDepth ds' d := by
  simp [countAtDepth, List.filter_append]

/-- C2, counterexample: with `max_states_per_level = 1`, a second child is
still registered at depth 1 (the width bound does not hold for the
registry), and the first child was not enqueued even though no state was
registered at depth 1 before it (the enqueue test counts the child
itself). -/
theorem register_width_bound_counterexample :
    exWidth2.strategy.max_states_per_level = 1 ∧
    countAtDepth exWidth0.discovered_states 1 = 0 ∧
    exWidth1.exploration_queue = exWidth0.exploration_queue ∧
    countAtDepth exWidth2.discovered_states 1 = 2 ∧
    exWidthRun.strategy.max_states_per_level = 1 ∧
    countAtDepth exWidthRun.discovered_states 1 = 3 :=
  ⟨rfl, rfl, rfl, rfl, rfl, rfl⟩

/-- C2, amended: `_register_new_state` registers a new id unconditionally,
so the registry is not width-bounded; the child is enqueued exactly when
`depth ≤ max_depth` and the number of states registered at its depth —
counted after inserting the child, hence including it — is below
`max_states_per_level`. -/
theorem register_width_enqueue_rule (env : Env) (ex : DeepExplorer)
    (sid parent trig : String) (d : Nat)
    (h : containsState ex.discovered_states sid = false) :
    containsState (register_new_state env ex sid parent trig d).discovered_states sid = true ∧
    countAtDepth (register_new_state env ex sid parent trig d).discovered_states d =
      countAtDepth ex.discovered_states d + 1 ∧
    (d ≤ ex.strategy.max_depth →
      countAtDepth (register_new_state env ex sid parent trig d).discovered_states d <
        ex.strategy.max_states_per_level →
      (register_new_state env ex sid parent trig d).exploration_queue =
        ex.exploration_queue ++ [(sid, d)]) ∧
    (¬(d ≤ ex.strategy.max_depth ∧
        countAtDepth (register_new_state env ex sid parent trig d).discovered_states d <
          ex.strategy.max_states_per_level) →
      (register_new_state env ex sid parent trig d).exploration_queue =
        ex.exploration_queue) := by
  refine ⟨?_, ?_, ?_, ?_⟩
  · unfold register_new_state
    rw [h]
    simp only [Bool.false_eq_true, if_false]
    simp [containsState, List.any_append]
  · unfold register_new_state
    rw [h]
    simp only [Bool.false_eq_true, if_false]
    simp [countAtDepth_append, countAtDepth]
  · intro hd hlt
    unfold register_new_state at hlt ⊢
    rw [h] at hlt ⊢
    simp only [Bool.false_eq_true, if_false] at hlt ⊢
    rw [if_pos]
    simp only [Bool.and_eq_true, decide_eq_true_eq]
    exact ⟨hd, hlt⟩
  · intro hcond
    unfold register_new_state at hcond ⊢
    rw [h] at hcond ⊢
    simp only [Bool.false_eq_true, if_false] at hcond ⊢
    rw [if_neg]
    simp only [Bool.and_eq_true, decide_eq_true_eq]
    exact hcond

/-- Witness for `register_width_enqueue_rule`: registering `c1` at depth 1
under `max_states_per_level = 1` adds it to the registry but does not
enqueue it, since the post-insertion count at depth 1 is already 1. -/
theorem register_width_enqueue_rule_witness :
    containsState exWidth1.discovered_states "c1" = true ∧
    countAtDepth exWidth1.discovered_states 1 = countAtDepth exWidth0.discovered_states 1 + 1 ∧
    exWidth1.exploration_queue = exWidth0.exploration_queue := by
  have hr := register_width_enqueue_rule envInert exWidth0 "c1" "s0" "s0::e1" 1 rfl
  exact ⟨hr.1, hr.2.1, hr.2.2.2 (by decide)⟩

/-! ## Engine frame and synchronisation lemmas -/

theorem register_frame (env : Env) (ex : DeepExplorer) (sid p t : String) (d : Nat) :
    (register_new_state env ex sid p t d).strategy = ex.strategy ∧
    (register_new_state env ex sid p t d).processed_log = ex.processed_log := by
  unfold register_new_state
  split <;> exact ⟨rfl, rfl⟩

theorem classify_frame (ex : DeepExplorer) (sid nm ty : String) :
    (classify_new_state ex sid nm ty).strategy = ex.strategy ∧
    (classify_new_state ex sid nm ty).processed_log = ex.processed_log ∧
    (classify_new_state ex sid nm ty).discovered_states.length =
      ex.discovered_states.length ∧
    (classify_new_state ex sid nm ty).stats.total_states_discovered =
      ex.stats.total_states_discovered ∧
    (classify_new_state ex sid nm ty).exploration_graph = ex.exploration_graph := by
  unfold classify_new_state
  split
  · dsimp only
    split_ifs <;> simp [updateState]
  · simp

theorem register_statsSynced (env : Env) (ex : DeepExplorer) (sid p t : String)
    (d : Nat) (hs : statsSynced ex) :
    statsSynced (register_new_state env ex sid p t d) := by
  unfold register_new_state
  split
  · exact hs
  · simpa [statsSynced] using hs

theorem register_length_le (env : Env) (ex : DeepExplorer) (sid p t : String)
    (d : Nat) :
    (register_new_state env ex sid p t d).discovered_states.length ≤
      ex.discovered_states.length + 1 := by
  unfold register_new_state
  split
  · exact Nat.le_succ _
  · simp

theorem explore_element_sync_len (env : Env) (ex : DeepExplorer)
    (e s : String) (d : Nat) (hs : statsSynced ex) :
    statsSynced (explore_element_strategically env ex e s d) ∧
    (explore_element_strategically env ex e s d).discovered_states.length ≤
      ex.discovered_states.length + 1 ∧
    (explore_element_strategically env ex e s d).strategy = ex.strategy ∧
    (explore_element_strategically env ex e s d).processed_log = ex.processed_log := by
  unfold explore_element_strategically
  cases env.findNode e with
  | none => exact ⟨hs, Nat.le_succ _, rfl, rfl⟩
  | some node =>
    cases env.click e with
    | exn => exact ⟨hs, Nat.le_succ _, rfl, rfl⟩
    | ok result =>
      by_cases hsucc : result.success = true
      · simp only [hsucc, if_true]
        by_cases hch : result.state_changed = true
        · simp only [hch, if_true]
          set ex1 : DeepExplorer := { ex with stats := { ex.stats with
              total_interactions := ex.stats.total_interactions + 1,
              successful_interactions := ex.stats.successful_interactions + 1 } } with hex1
          have hs1 : statsSynced ex1 := hs
          have h2 := register_statsSynced env ex1 result.new_state_id s e (d + 1) hs1
          have h2l := register_length_le env ex1 result.new_state_id s e (d + 1)
          have h2f := register_frame env ex1 result.new_state_id s e (d + 1)
          have h3 := classify_frame
            (register_new_state env ex1 result.new_state_id s e (d + 1))
            result.new_state_id node.g_icon_name node.g_type
          refine ⟨?_, ?_, ?_, ?_⟩
          · simpa [statsSynced, h3.2.2.1, h3.2.2.2.1] using h2
          · simpa [h3.2.2.1] using h2l
          · simp [h3.1, h2f.1, hex1]
          · simp [h3.2.1, h2f.2, hex1]
        · simp only [hch]
          exact ⟨hs, Nat.le_succ _, rfl, rfl⟩
      · simp only [hsucc]
        exact ⟨hs, Nat.le_succ _, rfl, rfl⟩

theorem explore_elements_sync_len (env : Env) (s : String) (d : Nat) :
    ∀ (l : List String) (ex : DeepExplorer), statsSynced ex →
      statsSynced (explore_elements env s d l ex) ∧
      (explore_elements env s d l ex).discovered_states.length ≤
        ex.discovered_states.length + l.length ∧
      (explore_elements env s d l ex).strategy = ex.strategy ∧
      (explore_elements env s d l ex).processed_log = ex.processed_log := by
  intro l
  induction l with
  | nil => exact fun ex hs => ⟨hs, Nat.le_refl _, rfl, rfl⟩
  | cons e rest ih =>
    intro ex hs
    unfold explore_elements
    by_cases hck : check_time_limit ex = true
    · simp only [hck, if_true]
      have h1 := explore_element_sync_len env ex e s d hs
      set ex1 := explore_element_strategically env ex e s d with hex1
      set ex2 : DeepExplorer := { ex1 with elapsed := ex1.elapsed + env.cost e + 1 } with hex2
      have hs2 : statsSynced ex2 := h1.1
      have h3 := ih ex2 hs2
      refine ⟨h3.1, ?_, ?_, ?_⟩
      · calc (explore_elements env s d rest ex2).discovered_states.length
            ≤ ex2.discovered_states.length + rest.length := h3.2.1
          _ = ex1.discovered_states.length + rest.length := rfl
          _ ≤ ex.discovered_states.length + 1 + rest.length :=
              Nat.add_le_add_right h1.2.1 _
          _ = ex.discovered_states.length + (e :: rest).length := by
              simp [List.length_cons]; omega
      · rw [h3.2.2.1]; exact h1.2.2.1
      · rw [h3.2.2.2]; exact h1.2.2.2
    · simp only [hck]
      exact ⟨hs, Nat.le_add_right _ _, rfl, rfl⟩

theorem explore_state_sync_len (env : Env) (ex : DeepExplorer) (s : String)
    (d : Nat) (hs : statsSynced ex) :
    statsSynced (explore_state_comprehensively env ex s d) ∧
    (explore_state_comprehensively env ex s d).discovered_states.length ≤
      ex.discovered_states.length + (env.pendingElements s).length ∧
    (explore_state_comprehensively env ex s d).strategy = ex.strategy ∧
    (explore_state_comprehensively env ex s d).processed_log = ex.processed_log := by
  unfold explore_state_comprehensively
  by_cases hnav : (ex.current_pos != s && !env.navigateOk s) = true
  · rw [if_pos hnav]
    exact ⟨hs, Nat.le_add_right _ _, rfl, rfl⟩
  · rw [if_neg hnav]
    set ex1 : DeepExplorer := { ex with current_pos := s } with hex1
    set ex2 : DeepExplorer := { ex1 with
      discovered_states := updateState ex1.discovered_states s
        (fun st => { st with explored := true }) } with hex2
    have hs2 : statsSynced ex2 := by
      simpa [statsSynced, hex2, hex1, updateState] using hs
    by_cases hpe : (env.pendingElements s).isEmpty = true
    · rw [if_pos hpe]
      refine ⟨?_, ?_, rfl, rfl⟩
      · simpa [statsSynced, updateState, hex2, hex1] using hs
      · simp [updateState, hex2, hex1]
    · rw [if_neg hpe]
      have h3 := explore_elements_sync_len env s d (env.pendingElements s) ex2 hs2
      refine ⟨h3.1, ?_, h3.2.2.1, h3.2.2.2⟩
      calc (explore_elements env s d (env.pendingElements s) ex2).discovered_states.length
          ≤ ex2.discovered_states.length + (env.pendingElements s).length := h3.2.1
        _ = ex.discovered_states.length + (env.pendingElements s).length := by
            simp [hex2, hex1, updateState]

/-! ## Claim C3: total-states bound -/

theorem explore_loop_len_bound (env : Env) (B : Nat)
    (hB : ∀ s, (env.pendingElements s).length ≤ B) :
    ∀ (fuel : Nat) (ex : DeepExplorer), statsSynced ex →
      ex.discovered_states.length ≤ ex.strategy.max_total_states + B →
      (explore_loop env fuel ex).discovered_states.length ≤
        ex.strategy.max_total_states + B := by
  intro fuel
  induction fuel with
  | zero => exact fun ex _ hb => hb
  | succ n ih =>
    intro ex hs hb
    unfold explore_loop
    rcases hq : ex.exploration_queue with _ | ⟨⟨sid, depth⟩, rest⟩
    · exact hb
    · dsimp only
      by_cases hg : (decide (ex.stats.total_states_discovered <
          ex.strategy.max_total_states) && check_time_limit ex) = true
      · rw [if_pos hg]
        have hlt : ex.stats.total_states_discovered < ex.strategy.max_total_states := by
          have := (Bool.and_eq_true _ _).mp hg
          exact of_decide_eq_true this.1
        by_cases hd : depth > ex.strategy.max_depth
        · rw [if_pos hd]
          exact ih _ hs hb
        · rw [if_neg hd]
          set ex2 : DeepExplorer :=
            { ex with
              exploration_queue := rest
              processed_log := ex.processed_log ++ [(sid, depth)] } with hex2
          have hs2 : statsSynced ex2 := hs
          have h3 := explore_state_sync_len env ex2 sid depth hs2
          set ex3 := explore_state_comprehensively env ex2 sid depth with hex3
          set ex4 : DeepExplorer := { ex3 with stats := { ex3.stats with
              max_depth_reached := max ex3.stats.max_depth_reached depth } } with hex4
          have hs4 : statsSynced ex4 := h3.1
          have hlen : ex.discovered_states.length <
              ex.strategy.max_total_states := hs ▸ hlt
          have hb4 : ex4.discovered_states.length ≤
              ex4.strategy.max_total_states + B := by
            have h1 : ex4.discovered_states.length ≤
                ex.discovered_states.length + B := by
              have := h3.2.1
              have hp := hB sid
              have he2 : ex2.discovered_states.length =
                ex.discovered_states.length := rfl
              simp only [hex4]
              omega
            have hstrat : ex4.strategy = ex.strategy := h3.2.2.1
            rw [hstrat]
            omega
          have := ih ex4 hs4 hb4
          rw [h3.2.2.1] at this
          exact this
      · rw [if_neg hg]
        exact hb

/-- C3, counterexample: with `max_total_states = 2`, exploring the initial
state registers three children in one pass (the bound is only consulted
before a dequeue), leaving four states in the registry. -/
theorem explore_total_bound_counterexample :
    exTotal.strategy.max_total_states = 2 ∧
    exTotal.discovered_states.length = 4 ∧
    exTotal.stats.total_states_discovered = 4 :=
  ⟨rfl, rfl, rfl⟩

/-- C3, amended: the loop checks `|registry| < max_total_states` only
before each dequeue, and one dequeued state may register up to one new
state per pending element without re-checking; hence for any bound `B` on
the pending-element count of every state, the registry size stays within
`max_total_states + B` (rather than within `max_total_states`). -/
theorem explore_loop_total_bound (env : Env) (strat : ExplorationStrategy)
    (B fuel : Nat) (hB : ∀ s, (env.pendingElements s).length ≤ B)
    (h1 : 1 ≤ strat.max_total_states + B) :
    (explore_loop env fuel (initial_explorer env strat)).discovered_states.length ≤
      strat.max_total_states + B := by
  have h0 : statsSynced (initial_explorer env strat) := rfl
  exact explore_loop_len_bound env B hB fuel (initial_explorer env strat) h0 h1

/-- Witness for `explore_loop_total_bound`: the inert environment with the
default strategy stays within `max_total_states + 0`. -/
theorem explore_loop_total_bound_witness :
    (explore_loop envInert 3 (initial_explorer envInert {})).discovered_states.length ≤
      ({} : ExplorationStrategy).max_total_states + 0 :=
  explore_loop_total_bound envInert {} 0 3 (fun _ => Nat.le.refl) (by decide)

/-! ## Claim C7: run termination and report outcomes -/

/-- C7: after successful initialisation, a run that completes or is
interrupted yields a `success = true` report built from the (possibly
partial) registry at that point, while a top-level exception is caught
exactly once and yields a `success = false` report carrying the message.
`run_deep_exploration` is a total function, so no outcome propagates an
exception to the caller. -/
theorem run_report_outcomes (env : Env) (strat : ExplorationStrategy)
    (fuel k : Nat) (msg : String) :
    (run_deep_exploration env strat true true .completed fuel).success = true ∧
    (run_deep_exploration env strat true true (.interrupted k) fuel).success = true ∧
    run_deep_exploration env strat true true (.interrupted k) fuel =
      generate_exploration_report (explore_loop env k (initial_explorer env strat)) ∧
    (run_deep_exploration env strat true true (.interrupted k) fuel).states =
      (explore_loop env k (initial_explorer env strat)).discovered_states ∧
    (run_deep_exploration env strat true true (.toplevelExn k msg) fuel).success = false ∧
    (run_deep_exploration env strat true true (.toplevelExn k msg) fuel).error = some msg :=
  ⟨rfl, rfl, rfl, rfl, rfl, rfl⟩

/-! ## Claim C8: lazy depth filtering -/

theorem explore_element_frame (env : Env) (ex : DeepExplorer) (e s : String)
    (d : Nat) :
    (explore_element_strategically env ex e s d).strategy = ex.strategy ∧
    (explore_element_strategically env ex e s d).processed_log = ex.processed_log := by
  unfold explore_element_strategically
  cases env.findNode e with
  | none => exact ⟨rfl, rfl⟩
  | some node =>
    cases env.click e with
    | exn => exact ⟨rfl, rfl⟩
    | ok result =>
      dsimp only
      by_cases hsucc : result.success = true
      · rw [if_pos hsucc]
        by_cases hch : result.state_changed = true
        · rw [if_pos hch]
          have h2 := register_frame env
            { ex with stats := { ex.stats with
                total_interactions := ex.stats.total_interactions + 1,
                successful_interactions := ex.stats.successful_interactions + 1 } }
            result.new_state_id s e (d + 1)
          have h3 := classify_frame
            (register_new_state env
              { ex with stats := { ex.stats with
                  total_interactions := ex.stats.total_interactions + 1,
                  successful_interactions := ex.stats.successful_interactions + 1 } }
              result.new_state_id s e (d + 1))
            result.new_state_id node.g_icon_name node.g_type
          exact ⟨by rw [show (_ : DeepExplorer).strategy = _ from h3.1, h2.1],
                 by rw [show (_ : DeepExplorer).processed_log = _ from h3.2.1, h2.2]⟩
        · rw [if_neg hch]
          exact ⟨rfl, rfl⟩
      · rw [if_neg hsucc]
        exact ⟨rfl, rfl⟩

theorem explore_elements_frame (env : Env) (s : String) (d : Nat) :
    ∀ (l : List String) (ex : DeepExplorer),
      (explore_elements env s d l ex).strategy = ex.strategy ∧
      (explore_elements env s d l ex).processed_log = ex.processed_log := by
  intro l
  induction l with
  | nil => exact fun ex => ⟨rfl, rfl⟩
  | cons e rest ih =>
    intro ex
    unfold explore_elements
    by_cases hck : check_time_limit ex = true
    · rw [if_pos hck]
      have h1 := explore_element_frame env ex e s d
      have h2 := ih { explore_element_strategically env ex e s d with
        elapsed := (explore_element_strategically env ex e s d).elapsed + env.cost e + 1 }
      exact ⟨by rw [h2.1]; exact h1.1, by rw [h2.2]; exact h1.2⟩
    · rw [if_neg hck]
      exact ⟨rfl, rfl⟩

theorem explore_state_frame (env : Env) (ex : DeepExplorer) (s : String)
    (d : Nat) :
    (explore_state_comprehensively env ex s d).strategy = ex.strategy ∧
    (explore_state_comprehensively env ex s d).processed_log = ex.processed_log := by
  unfold explore_state_comprehensively
  by_cases hnav : (ex.current_pos != s && !env.navigateOk s) = true
  · rw [if_pos hnav]
    exact ⟨rfl, rfl⟩
  · rw [if_neg hnav]
    by_cases hpe : (env.pendingElements s).isEmpty = true
    · rw [if_pos hpe]
      exact ⟨rfl, rfl⟩
    · rw [if_neg hpe]
      exact explore_elements_frame env s d (env.pendingElements s) _

theorem explore_loop_processed_log (env : Env) :
    ∀ (fuel : Nat) (ex : DeepExplorer) (p : String × Nat),
      p ∈ (explore_loop env fuel ex).processed_log →
      p ∈ ex.processed_log ∨ p.2 ≤ ex.strategy.max_depth := by
  intro fuel
  induction fuel with
  | zero => exact fun ex p hp => Or.inl hp
  | succ n ih =>
    intro ex p hp
    unfold explore_loop at hp
    rcases hq : ex.exploration_queue with _ | ⟨⟨sid, depth⟩, rest⟩
    · rw [hq] at hp
      exact Or.inl hp
    · rw [hq] at hp
      dsimp only at hp
      by_cases hg : (decide (ex.stats.total_states_discovered <
          ex.strategy.max_total_states) && check_time_limit ex) = true
      · rw [if_pos hg] at hp
        by_cases hd : depth > ex.strategy.max_depth
        · rw [if_pos hd] at hp
          exact ih { ex with exploration_queue := rest } p hp
        · rw [if_neg hd] at hp
          set ex2 : DeepExplorer :=
            { ex with
              exploration_queue := rest
              processed_log := ex.processed_log ++ [(sid, depth)] } with hex2
          set ex3 := explore_state_comprehensively env ex2 sid depth with hex3
          set ex4 : DeepExplorer := { ex3 with stats := { ex3.stats with
              max_depth_reached := max ex3.stats.max_depth_reached depth } } with hex4
          have hlogeq : ex4.processed_log = ex.processed_log ++ [(sid, depth)] := by
            show ex3.processed_log = _
            rw [hex3, (explore_state_frame env ex2 sid depth).2]
          have hstrat4 : ex4.strategy = ex.strategy := by
            show ex3.strategy = _
            rw [hex3, (explore_state_frame env ex2 sid depth).1]
          rcases ih ex4 p hp with hmem | hdep
          · rw [hlogeq] at hmem
            rcases List.mem_append.mp hmem with hm | hm
            · exact Or.inl hm
            · have hpe : p = (sid, depth) := by simpa using hm
              exact Or.inr (by rw [hpe]; exact Nat.le_of_not_lt hd)
          · rw [hstrat4] at hdep
            exact Or.inr hdep
      · rw [if_neg hg] at hp
        exact Or.inl hp

/-- C8: no processed queue entry has depth exceeding `max_depth`: the main
loop discards a dequeued entry whose depth exceeds the bound before any
navigation or interaction, so every entry in the processed history of a
run respects the bound. -/
theorem processed_entries_within_depth_bound (env : Env)
    (strat : ExplorationStrategy) (fuel : Nat) (p : String × Nat)
    (hp : p ∈ (explore_loop env fuel (initial_explorer env strat)).processed_log) :
    p.2 ≤ strat.max_depth := by
  rcases explore_loop_processed_log env fuel (initial_explorer env strat) p hp with h | h
  · simp [initial_explorer] at h
  · exact h

/-- Witness for `processed_entries_within_depth_bound`: in the fan-out run
the root entry `("s0", 0)` is processed and respects the depth bound. -/
theorem processed_entries_depth_bound_witness :
    (("s0", 0) : String × Nat).2 ≤
      ({ max_total_states := 2 } : ExplorationStrategy).max_depth :=
  processed_entries_within_depth_bound envFanOut { max_total_states := 2 } 5
    ("s0", 0) (by decide)

/-! ## Claim C9: idempotent registration and tree-shaped graph -/

theorem childOccurrences_graphAppend (sid parent child : String)
    (g : List (String × List String)) :
    childOccurrences sid (graphAppend g parent child) =
      childOccurrences sid g + (if (child == sid) = true then 1 else 0) := by
  induction g with
  | nil =>
    simp only [graphAppend, childOccurrences, List.map_cons, List.map_nil,
      List.sum_cons, List.sum_nil, List.filter_nil]
    by_cases h : (child == sid) = true
    · simp [List.filter, h]
    · have h' : (child == sid) = false := by simpa using h
      simp [List.filter, h']
  | cons p rest ih =>
    unfold graphAppend
    by_cases hp : (p.1 == parent) = true
    · rw [if_pos hp]
      simp only [childOccurrences, List.map_cons, List.sum_cons, List.filter_append]
      by_cases h : (child == sid) = true
      · simp [List.filter, h]
        omega
      · have h' : (child == sid) = false := by simpa using h
        simp [List.filter, h']
    · rw [if_neg hp]
      simp only [childOccurrences, List.map_cons, List.sum_cons] at ih ⊢
      omega

theorem containsState_updateState (ds : List (String × ExplorationState))
    (sid : String) (f : ExplorationState → ExplorationState) (x : String) :
    containsState (updateState ds sid f) x = containsState ds x := by
  unfold containsState updateState
  rw [List.any_map]
  congr 1
  funext p
  by_cases h : (p.1 == sid) = true <;> simp [h, Function.comp]

theorem containsState_append (ds ds' : List (String × ExplorationState))
    (x : String) :
    containsState (ds ++ ds') x = (containsState ds x || containsState ds' x) := by
  simp [containsState, List.any_append]

theorem graphInv_register (env : Env) (ex : DeepExplorer) (sid p t : String)
    (d : Nat) (h : GraphInv ex) :
    GraphInv (register_new_state env ex sid p t d) := by
  unfold register_new_state
  split
  · exact h
  · rename_i hnc
    intro x
    have hx := h x
    have hocc := childOccurrences_graphAppend x p sid ex.exploration_graph
    by_cases hxs : (sid == x) = true
    · have hxeq : sid = x := by simpa using hxs
      have hzero : childOccurrences x ex.exploration_graph = 0 := by
        by_contra hne
        have h1 : 1 ≤ childOccurrences x ex.exploration_graph := by omega
        have := hx.2 h1
        rw [← hxeq] at this
        exact hnc this
      constructor
      · show childOccurrences x (graphAppend ex.exploration_graph p sid) ≤ 1
        rw [hocc, hzero, if_pos hxs]
      · intro _
        show containsState (ex.discovered_states ++ _) x = true
        rw [containsState_append]
        have : containsState [(sid,
            { state_id := sid, depth := d, parent_state := some p,
              trigger_element := some t,
              element_count := if env.fdomHasState sid = true then env.fdomNodeCount sid else 0 })] x = true := by
          simp [containsState, hxs]
        rw [this, Bool.or_true]
    · have hxs' : (sid == x) = false := by simpa using hxs
      constructor
      · show childOccurrences x (graphAppend ex.exploration_graph p sid) ≤ 1
        rw [hocc, hxs']
        simpa using hx.1
      · intro h1
        show containsState (ex.discovered_states ++ _) x = true
        rw [containsState_append]
        have h1' : 1 ≤ childOccurrences x ex.exploration_graph := by
          rw [hocc, hxs'] at h1
          simpa using h1
        rw [hx.2 h1']
        rfl

theorem graphInv_classify (ex : DeepExplorer) (sid nm ty : String)
    (h : GraphInv ex) : GraphInv (classify_new_state ex sid nm ty) := by
  have hg := (classify_frame ex sid nm ty).2.2.2.2
  have hc : ∀ x, containsState (classify_new_state ex sid nm ty).discovered_states x =
      containsState ex.discovered_states x := by
    intro x
    unfold classify_new_state
    split
    · dsimp only
      split_ifs <;> simp [containsState_updateState]
    · rfl
  intro x
  rw [hg, hc]
  exact h x

theorem graphInv_explore_element (env : Env) (ex : DeepExplorer) (e s : String)
    (d : Nat) (h : GraphInv ex) :
    GraphInv (explore_element_strategically env ex e s d) := by
  unfold explore_element_strategically
  cases env.findNode e with
  | none => exact h
  | some node =>
    cases env.click e with
    | exn => exact h
    | ok result =>
      dsimp only
      by_cases hsucc : result.success = true
      · rw [if_pos hsucc]
        by_cases hch : result.state_changed = true
        · rw [if_pos hch]
          have h1 : GraphInv { ex with stats := { ex.stats with
              total_interactions := ex.stats.total_interactions + 1,
              successful_interactions := ex.stats.successful_interactions + 1 } } := h
          have h2 := graphInv_register env _ result.new_state_id s e (d + 1) h1
          have h3 := graphInv_classify _ result.new_state_id node.g_icon_name
            node.g_type h2
          exact h3
        · rw [if_neg hch]
          exact h
      · rw [if_neg hsucc]
        exact h

theorem graphInv_explore_elements (env : Env) (s : String) (d : Nat) :
    ∀ (l : List String) (ex : DeepExplorer), GraphInv ex →
      GraphInv (explore_elements env s d l ex) := by
  intro l
  induction l with
  | nil => exact fun ex h => h
  | cons e rest ih =>
    intro ex h
    unfold explore_elements
    by_cases hck : check_time_limit ex = true
    · rw [if_pos hck]
      refine ih _ ?_
      exact graphInv_explore_element env ex e s d h
    · rw [if_neg hck]
      exact h

theorem graphInv_explore_state (env : Env) (ex : DeepExplorer) (s : String)
    (d : Nat) (h : GraphInv ex) :
    GraphInv (explore_state_comprehensively env ex s d) := by
  unfold explore_state_comprehensively
  by_cases hnav : (ex.current_pos != s && !env.navigateOk s) = true
  · rw [if_pos hnav]
    exact h
  · rw [if_neg hnav]
    by_cases hpe : (env.pendingElements s).isEmpty = true
    · rw [if_pos hpe]
      intro x
      refine ⟨(h x).1, fun h1 => ?_⟩
      dsimp only
      rw [containsState_updateState, containsState_updateState]
      exact (h x).2 h1
    · rw [if_neg hpe]
      refine graphInv_explore_elements env s d _ _ ?_
      intro x
      refine ⟨(h x).1, fun h1 => ?_⟩
      dsimp only
      rw [containsState_updateState]
      exact (h x).2 h1

theorem graphInv_explore_loop (env : Env) :
    ∀ (fuel : Nat) (ex : DeepExplorer), GraphInv ex →
      GraphInv (explore_loop env fuel ex) := by
  intro fuel
  induction fuel with
  | zero => exact fun ex h => h
  | succ n ih =>
    intro ex h
    unfold explore_loop
    rcases hq : ex.exploration_queue with _ | ⟨⟨sid, depth⟩, rest⟩
    · exact h
    · dsimp only
      by_cases hg : (decide (ex.stats.total_states_discovered <
          ex.strategy.max_total_states) && check_time_limit ex) = true
      · rw [if_pos hg]
        by_cases hd : depth > ex.strategy.max_depth
        · rw [if_pos hd]
          exact ih { ex with exploration_queue := rest } h
        · rw [if_neg hd]
          refine ih _ ?_
          have h2 : GraphInv { ex with
              exploration_queue := rest
              processed_log := ex.processed_log ++ [(sid, depth)] } := h
          have h3 := graphInv_explore_state env _ sid depth h2
          exact h3
      · rw [if_neg hg]
        exact h

/-- C9: registering an already-known state id leaves the whole run context
unchanged (registry, graph, queue and statistics) — first discoverer wins;
consequently, in any run from the initial state, every state id occurs at
most once as a child in the exploration graph, so each state has at most
one parent and the graph is a tree. -/
theorem register_idempotent_and_tree :
    (∀ (env : Env) (ex : DeepExplorer) (sid p t : String) (d : Nat),
      containsState ex.discovered_states sid = true →
      register_new_state env ex sid p t d = ex) ∧
    (∀ (env : Env) (strat : ExplorationStrategy) (fuel : Nat) (sid : String),
      childOccurrences sid
        (explore_loop env fuel (initial_explorer env strat)).exploration_graph ≤ 1) := by
  constructor
  · intro env ex sid p t d h
    unfold register_new_state
    rw [if_pos h]
  · intro env strat fuel sid
    have h0 : GraphInv (initial_explorer env strat) := by
      intro x
      exact ⟨Nat.zero_le 1, fun h1 => absurd h1 (by simp [initial_explorer, childOccurrences])⟩
    exact (graphInv_explore_loop env fuel (initial_explorer env strat) h0 sid).1

/-- Witness for `register_idempotent_and_tree`: re-registering the known
id `c1` with a different parent, trigger and depth changes nothing, and
the fan-out run's graph gives each discovered state one parent. -/
theorem register_idempotent_witness :
    register_new_state envInert exWidth1 "c1" "other_parent" "other_trigger" 7 = exWidth1 ∧
    childOccurrences "sts0::e1"
      (explore_loop envFanOut 5
        (initial_explorer envFanOut { max_total_states := 2 })).exploration_graph ≤ 1 :=
  ⟨register_idempotent_and_tree.1 envInert exWidth1 "c1" "other_parent"
      "other_trigger" 7 (by decide),
   register_idempotent_and_tree.2 envFanOut { max_total_states := 2 } 5 "sts0::e1"⟩

/-! ## Focus state-machine lemmas -/

theorem update_tracking_fields (st : FocusState) (wi : WindowInfo) :
    (update_window_state_tracking st wi).focus_failure_count = st.focus_failure_count ∧
    (update_window_state_tracking st wi).focus_verification_enabled =
      st.focus_verification_enabled ∧
    (update_window_state_tracking st wi).auto_recovery_enabled =
      st.auto_recovery_enabled ∧
    (update_window_state_tracking st wi).last_known_position = some wi.geom := by
  unfold update_window_state_tracking
  cases wi.title <;> exact ⟨rfl, rfl, rfl, rfl⟩

/-- Outcome characterisation of `_handle_focus_failure`: a failing return
carries the incremented failure count; a successful return (the app
restart) resets it to 0 and performed at least one external call. -/
theorem handle_cases (env : FocusEnv) (ft : FailureType) (st : FocusState)
    (q : Nat) :
    ((handle_focus_failure env ft st q).result = false ∧
     (handle_focus_failure env ft st q).state.focus_failure_count =
       st.focus_failure_count + 1) ∨
    ((handle_focus_failure env ft st q).result = true ∧
     (handle_focus_failure env ft st q).state.focus_failure_count = 0 ∧
     q < (handle_focus_failure env ft st q).os_queries) := by
  unfold handle_focus_failure
  dsimp only
  split_ifs <;> simp [Nat.lt_succ_self]

theorem handle_enabled (env : FocusEnv) (ft : FailureType) (st : FocusState)
    (q : Nat)
    (h : (handle_focus_failure env ft st q).state.focus_verification_enabled = true) :
    st.focus_verification_enabled = true := by
  unfold handle_focus_failure at h
  dsimp only at h
  split_ifs at h <;> simp_all

theorem handle_no_auto (env : FocusEnv) (ft : FailureType) (st : FocusState)
    (q : Nat) (h : st.auto_recovery_enabled = false) :
    handle_focus_failure env ft st q =
      ⟨false, { st with focus_failure_count := st.focus_failure_count + 1 }, q⟩ := by
  unfold handle_focus_failure
  dsimp only
  rw [if_pos]
  simp [h]

theorem try_alternative_cases (env : FocusEnv) (st : FocusState) (q : Nat) :
    ((try_alternative_focus_methods env st q).result = false ∧
     (try_alternative_focus_methods env st q).state.focus_failure_count =
       st.focus_failure_count + 1) ∨
    ((try_alternative_focus_methods env st q).result = true ∧
     (try_alternative_focus_methods env st q).state.focus_failure_count = 0 ∧
     q < (try_alternative_focus_methods env st q).os_queries) := by
  unfold try_alternative_focus_methods
  by_cases hexn : env.alt_exn = true
  · rw [if_pos hexn]
    exact handle_cases env .alternative_methods_exception st q
  · rw [if_neg hexn]
    by_cases hcmd : (env.focus_cmd_ok && env.fg_after_focus) = true
    · rw [if_pos hcmd]
      right
      refine ⟨rfl, rfl, ?_⟩
      dsimp only
      split_ifs <;> omega
    · rw [if_neg hcmd]
      dsimp only
      rcases hwc : env.window_info_for_click with _ | wi
      · dsimp only
        rcases handle_cases env .all_methods_failed st
            (q + (if env.focus_cmd_ok = true then 2 else 1) + 1) with h | h
        · exact Or.inl h
        · refine Or.inr ⟨h.1, h.2.1, ?_⟩
          have := h.2.2
          omega
      · dsimp only
        by_cases hclick : env.fg_after_click = true
        · rw [if_pos hclick]
          right
          exact ⟨rfl, rfl, by dsimp only; omega⟩
        · rw [if_neg hclick]
          rcases handle_cases env .all_methods_failed st
              (q + (if env.focus_cmd_ok = true then 2 else 1) + 3) with h | h
          · exact Or.inl h
          · refine Or.inr ⟨h.1, h.2.1, ?_⟩
            have := h.2.2
            omega

theorem try_alternative_enabled (env : FocusEnv) (st : FocusState) (q : Nat)
    (h : (try_alternative_focus_methods env st q).state.focus_verification_enabled = true) :
    st.focus_verification_enabled = true := by
  unfold try_alternative_focus_methods at h
  by_cases hexn : env.alt_exn = true
  · rw [if_pos hexn] at h
    exact handle_enabled _ _ _ _ h
  · rw [if_neg hexn] at h
    by_cases hcmd : (env.focus_cmd_ok && env.fg_after_focus) = true
    · rw [if_pos hcmd] at h
      exact h
    · rw [if_neg hcmd] at h
      dsimp only at h
      rcases hwc : env.window_info_for_click with _ | wi <;> rw [hwc] at h
      · exact handle_enabled _ _ _ _ h
      · by_cases hclick : env.fg_after_click = true
        · rw [if_pos hclick] at h
          exact h
        · rw [if_neg hclick] at h
          exact handle_enabled _ _ _ _ h

theorem recover_cases (env : FocusEnv) (st : FocusState) (q : Nat) :
    ((recover_window_focus env st q).result = false ∧
     (recover_window_focus env st q).state.focus_failure_count =
       st.focus_failure_count + 1) ∨
    ((recover_window_focus env st q).result = true ∧
     (recover_window_focus env st q).state.focus_failure_count = 0 ∧
     q < (recover_window_focus env st q).os_queries) := by
  unfold recover_window_focus
  by_cases hexn : env.recovery_exn = true
  · rw [if_pos hexn]
    exact handle_cases env .recovery_exception st q
  · rw [if_neg hexn]
    dsimp only
    by_cases hsm : env.smart_fg_ok = true
    · rw [if_pos hsm]
      by_cases hfg : env.fg_after_smart = true
      · rw [if_pos hfg]
        right
        unfold refresh_window_coordinates_after_focus
        rcases hfw : env.fresh_window_info with _ | fwi
        · exact ⟨rfl, rfl, by dsimp only; omega⟩
        · refine ⟨rfl, ?_, by dsimp only; omega⟩
          exact (update_tracking_fields _ fwi).1
      · rw [if_neg hfg]
        rcases try_alternative_cases env st (q + 1 + 1) with h | h
        · exact Or.inl h
        · exact Or.inr ⟨h.1, h.2.1, by have := h.2.2; omega⟩
    · rw [if_neg hsm]
      rcases try_alternative_cases env st (q + 1) with h | h
      · exact Or.inl h
      · exact Or.inr ⟨h.1, h.2.1, by have := h.2.2; omega⟩

theorem recover_enabled (env : FocusEnv) (st : FocusState) (q : Nat)
    (h : (recover_window_focus env st q).state.focus_verification_enabled = true) :
    st.focus_verification_enabled = true := by
  unfold recover_window_focus at h
  by_cases hexn : env.recovery_exn = true
  · rw [if_pos hexn] at h
    exact handle_enabled _ _ _ _ h
  · rw [if_neg hexn] at h
    dsimp only at h
    by_cases hsm : env.smart_fg_ok = true
    · rw [if_pos hsm] at h
      by_cases hfg : env.fg_after_smart = true
      · rw [if_pos hfg] at h
        unfold refresh_window_coordinates_after_focus at h
        rcases hfw : env.fresh_window_info with _ | fwi <;> rw [hfw] at h
        · exact h
        · dsimp only at h
          rw [(update_tracking_fields _ fwi).2.1] at h
          exact h
      · rw [if_neg hfg] at h
        exact try_alternative_enabled _ _ _ h
    · rw [if_neg hsm] at h
      exact try_alternative_enabled _ _ _ h

theorem ensure_enabled (env : FocusEnv) (fc : Bool) (st : FocusState)
    (h : (ensure_target_window_focused env fc st).state.focus_verification_enabled = true) :
    st.focus_verification_enabled = true := by
  unfold ensure_target_window_focused at h
  by_cases h1 : (!st.focus_verification_enabled) = true
  · rw [if_pos h1] at h
    exact h
  · rw [if_neg h1] at h
    by_cases h2 : (!fc && decide (env.now - st.last_focus_check <
        st.focus_check_interval)) = true
    · rw [if_pos h2] at h
      exact h
    · rw [if_neg h2] at h
      dsimp only at h
      by_cases h3 : env.check_exn = true
      · rw [if_pos h3] at h
        have := handle_enabled _ _ _ _ h
        exact this
      · rw [if_neg h3] at h
        rcases h4 : env.app_window with _ | wid <;> rw [h4] at h <;> dsimp only at h
        · exact h
        · rcases h5 : env.window_info with _ | wi <;> rw [h5] at h <;> dsimp only at h
          · have := handle_enabled _ _ _ _ h
            exact this
          · by_cases h6 : env.fg_initial = true
            · rw [if_pos h6] at h
              dsimp only at h
              rw [(update_tracking_fields _ wi).2.1] at h
              exact h
            · rw [if_neg h6] at h
              have := recover_enabled _ _ _ h
              exact this

/-! ## Claim C5: the DISABLED state is terminal -/

/-- C5: once `focus_verification_enabled` is false every call returns true
immediately, performs no OS query and leaves the tracker state unchanged
(so it stays disabled forever); no call ever turns verification back on;
and concretely, with `max_focus_failures = 3`, three consecutive
foreground mismatches whose recoveries fail disable the tracker, after
which a fourth call returns true with zero OS queries. -/
theorem focus_disabled_terminal :
    (∀ (env : FocusEnv) (fc : Bool) (st : FocusState),
      st.focus_verification_enabled = false →
      ensure_target_window_focused env fc st = ⟨true, st, 0⟩) ∧
    (∀ (env : FocusEnv) (fc : Bool) (st : FocusState),
      (ensure_target_window_focused env fc st).state.focus_verification_enabled = true →
      st.focus_verification_enabled = true) ∧
    (stFresh.max_focus_failures = 3 ∧
     focusCall1.result = false ∧
     focusCall1.state.focus_failure_count = 1 ∧
     focusCall2.state.focus_failure_count = 2 ∧
     focusCall3.state.focus_failure_count = 3 ∧
     focusCall3.state.focus_verification_enabled = false ∧
     focusCall4.result = true ∧
     focusCall4.os_queries = 0 ∧
     focusCall4.state = focusCall3.state) := by
  refine ⟨?_, ensure_enabled, ?_⟩
  · intro env fc st h
    unfold ensure_target_window_focused
    rw [if_pos (by simp [h])]
  · exact ⟨rfl, rfl, rfl, rfl, rfl, rfl, rfl, rfl, rfl⟩

/-- Witness for `focus_disabled_terminal`: the disabled tracker reached by
the three-failure scenario satisfies the terminal clause. -/
theorem focus_disabled_terminal_witness :
    ensure_target_window_focused envFocusAllFail true focusCall3.state =
      ⟨true, focusCall3.state, 0⟩ :=
  focus_disabled_terminal.1 envFocusAllFail true focusCall3.state (by decide)

/-! ## Claim C6: failure-count monotonicity -/

/-- C6: on any call performing a real check (it returns true after at
least one OS query — a successful verification, recovery or restart), the
failure count resets to 0; a quick-return call (true with no OS query)
leaves it unchanged; a failing call never decreases it. -/
theorem focus_count_monotonic (env : FocusEnv) (fc : Bool) (st : FocusState) :
    ((ensure_target_window_focused env fc st).result = true →
      0 < (ensure_target_window_focused env fc st).os_queries →
      (ensure_target_window_focused env fc st).state.focus_failure_count = 0) ∧
    ((ensure_target_window_focused env fc st).result = true →
      (ensure_target_window_focused env fc st).os_queries = 0 →
      (ensure_target_window_focused env fc st).state.focus_failure_count =
        st.focus_failure_count) ∧
    ((ensure_target_window_focused env fc st).result = false →
      st.focus_failure_count ≤
        (ensure_target_window_focused env fc st).state.focus_failure_count) := by
  unfold ensure_target_window_focused
  by_cases h1 : (!st.focus_verification_enabled) = true
  · rw [if_pos h1]
    exact ⟨fun _ hq => absurd hq (by simp), fun _ _ => rfl, fun hr => by simp at hr⟩
  · rw [if_neg h1]
    by_cases h2 : (!fc && decide (env.now - st.last_focus_check <
        st.focus_check_interval)) = true
    · rw [if_pos h2]
      exact ⟨fun _ hq => absurd hq (by simp), fun _ _ => rfl, fun hr => by simp at hr⟩
    · rw [if_neg h2]
      dsimp only
      by_cases h3 : env.check_exn = true
      · rw [if_pos h3]
        rcases handle_cases env .check_exception
            { st with last_focus_check := env.now } 0 with h | h
        · exact ⟨fun hr => absurd hr (by simp [h.1]), fun hr => absurd hr (by simp [h.1]),
            fun _ => by rw [h.2]; dsimp only; omega⟩
        · exact ⟨fun _ _ => h.2.1, fun _ hq => absurd hq (by have := h.2.2; omega),
            fun hr => absurd hr (by simp [h.1])⟩
      · rw [if_neg h3]
        rcases h4 : env.app_window with _ | wid
        · exact ⟨fun hr => by simp at hr, fun hr => by simp at hr, fun _ => le_refl _⟩
        · dsimp only
          rcases h5 : env.window_info with _ | wi <;> dsimp only
          · rcases handle_cases env .window_not_found { st with last_focus_check := env.now, expected_window_id := some wid } 1 with h | h
            · exact ⟨fun hr => absurd hr (by simp [h.1]), fun hr => absurd hr (by simp [h.1]),
                fun _ => by rw [h.2]; dsimp only; omega⟩
            · exact ⟨fun _ _ => h.2.1, fun _ hq => absurd hq (by have := h.2.2; omega),
                fun hr => absurd hr (by simp [h.1])⟩
          · by_cases h6 : env.fg_initial = true
            · rw [if_pos h6]
              refine ⟨fun _ _ => ?_, fun _ hq => absurd hq (by simp), fun hr => by simp at hr⟩
              exact (update_tracking_fields _ wi).1
            · rw [if_neg h6]
              rcases recover_cases env { st with last_focus_check := env.now, expected_window_id := some wid } 2 with h | h
              · exact ⟨fun hr => absurd hr (by simp [h.1]), fun hr => absurd hr (by simp [h.1]),
                  fun _ => by rw [h.2]; dsimp only; omega⟩
              · exact ⟨fun _ _ => h.2.1, fun _ hq => absurd hq (by have := h.2.2; omega),
                  fun hr => absurd hr (by simp [h.1])⟩

/-- Witness for `focus_count_monotonic`: a successful recovery resets the
count to 0, and a failing call does not decrease it. -/
theorem focus_count_monotonic_witness :
    (ensure_target_window_focused envFocusCmdOnly true stStale).state.focus_failure_count = 0 ∧
    stFresh.focus_failure_count ≤
      (ensure_target_window_focused envFocusAllFail true stFresh).state.focus_failure_count :=
  ⟨(focus_count_monotonic envFocusCmdOnly true stStale).1 rfl (by decide),
   (focus_count_monotonic envFocusAllFail true stFresh).2.2 rfl⟩

/-! ## Claim C10: behaviour with auto-recovery disabled -/

theorem try_alternative_no_auto_enabled (env : FocusEnv) (st : FocusState)
    (q : Nat) (h : st.auto_recovery_enabled = false) :
    (try_alternative_focus_methods env st q).state.focus_verification_enabled =
      st.focus_verification_enabled := by
  unfold try_alternative_focus_methods
  by_cases hexn : env.alt_exn = true
  · rw [if_pos hexn, handle_no_auto env _ st q h]
  · rw [if_neg hexn]
    by_cases hcmd : (env.focus_cmd_ok && env.fg_after_focus) = true
    · rw [if_pos hcmd]
    · rw [if_neg hcmd]
      dsimp only
      rcases hwc : env.window_info_for_click with _ | wi <;> dsimp only
      · rw [handle_no_auto env _ st _ h]
      · by_cases hclick : env.fg_after_click = true
        · rw [if_pos hclick]
        · rw [if_neg hclick, handle_no_auto env _ st _ h]

theorem recover_no_auto_enabled (env : FocusEnv) (st : FocusState) (q : Nat)
    (h : st.auto_recovery_enabled = false) :
    (recover_window_focus env st q).state.focus_verification_enabled =
      st.focus_verification_enabled := by
  unfold recover_window_focus
  by_cases hexn : env.recovery_exn = true
  · rw [if_pos hexn, handle_no_auto env _ st q h]
  · rw [if_neg hexn]
    dsimp only
    by_cases hsm : env.smart_fg_ok = true
    · rw [if_pos hsm]
      by_cases hfg : env.fg_after_smart = true
      · rw [if_pos hfg]
        unfold refresh_window_coordinates_after_focus
        rcases hfw : env.fresh_window_info with _ | fwi
        · rfl
        · exact (update_tracking_fields _ fwi).2.1
      · rw [if_neg hfg]
        exact try_alternative_no_auto_enabled env st _ h
    · rw [if_neg hsm]
      exact try_alternative_no_auto_enabled env st _ h

/-- C10: with `auto_recovery_enabled = false`, `_handle_focus_failure`
still increments the failure count and returns false, but bails out
before the `max_focus_failures` check, so no call ever flips
`focus_verification_enabled`; concretely, five consecutive failing calls
drive the count to 5, past `max_focus_failures = 3`, with verification
still enabled. -/
theorem no_auto_recovery_never_disables :
    (∀ (env : FocusEnv) (ft : FailureType) (st : FocusState) (q : Nat),
      st.auto_recovery_enabled = false →
      handle_focus_failure env ft st q =
        ⟨false, { st with focus_failure_count := st.focus_failure_count + 1 }, q⟩) ∧
    (∀ (env : FocusEnv) (fc : Bool) (st : FocusState),
      st.auto_recovery_enabled = false →
      (ensure_target_window_focused env fc st).state.focus_verification_enabled =
        st.focus_verification_enabled) ∧
    (stNoAuto.max_focus_failures = 3 ∧
     (focusNoAutoCalls 5).focus_failure_count = 5 ∧
     (focusNoAutoCalls 5).focus_verification_enabled = true) := by
  refine ⟨handle_no_auto, ?_, rfl, rfl, rfl⟩
  intro env fc st h
  unfold ensure_target_window_focused
  by_cases h1 : (!st.focus_verification_enabled) = true
  · rw [if_pos h1]
  · rw [if_neg h1]
    by_cases h2 : (!fc && decide (env.now - st.last_focus_check <
        st.focus_check_interval)) = true
    · rw [if_pos h2]
    · rw [if_neg h2]
      dsimp only
      by_cases h3 : env.check_exn = true
      · rw [if_pos h3, handle_no_auto env _ { st with last_focus_check := env.now } 0 h]
      · rw [if_neg h3]
        rcases h4 : env.app_window with _ | wid
        · rfl
        · dsimp only
          rcases h5 : env.window_info with _ | wi <;> dsimp only
          · rw [handle_no_auto env _ { st with last_focus_check := env.now, expected_window_id := some wid } 1 h]
          · by_cases h6 : env.fg_initial = true
            · rw [if_pos h6]
              exact (update_tracking_fields _ wi).2.1
            · rw [if_neg h6]
              exact recover_no_auto_enabled env _ 2 h

/-- Witness for `no_auto_recovery_never_disables`: a concrete failure with
auto-recovery off increments the count, returns false and leaves
verification enabled. -/
theorem no_auto_recovery_witness :
    handle_focus_failure envFocusAllFail .all_methods_failed stNoAuto 2 =
      ⟨false, { stNoAuto with focus_failure_count := stNoAuto.focus_failure_count + 1 }, 2⟩ ∧
    (ensure_target_window_focused envFocusAllFail true stNoAuto).state.focus_verification_enabled =
      stNoAuto.focus_verification_enabled :=
  ⟨no_auto_recovery_never_disables.1 envFocusAllFail .all_methods_failed stNoAuto 2 rfl,
   no_auto_recovery_never_disables.2.1 envFocusAllFail true stNoAuto rfl⟩

/-! ## Claim C4: geometry refresh after recovery -/

/-- C4, counterexample: a recovery confirmed through the direct focus
command (method 2) returns true and resets the failure count, but the
cached window geometry keeps the stale bounds `⟨0, 0, 100, 100⟩` even
though the window currently sits at `⟨10, 10, 300, 200⟩` — the claimed
refresh happens on the smart-foreground path only. -/
theorem focus_recovery_no_refresh_counterexample :
    (ensure_target_window_focused envFocusCmdOnly true stStale).result = true ∧
    (ensure_target_window_focused envFocusCmdOnly true stStale).state.focus_failure_count = 0 ∧
    envFocusCmdOnly.window_info = some { hwnd := 1, geom := ⟨10, 10, 300, 200⟩ } ∧
    (ensure_target_window_focused envFocusCmdOnly true stStale).state.last_known_position =
      some ⟨0, 0, 100, 100⟩ :=
  ⟨rfl, rfl, rfl, rfl⟩

/-- C4, amended: every confirmed recovery returns true and resets
`failure_count` to 0, but only the smart-foreground path refreshes the
cached window geometry; a recovery confirmed by the direct focus command
or by the synthetic title-bar click leaves `last_known_position`
unchanged (possibly stale). -/
theorem focus_recovery_refresh_rule (env : FocusEnv) (st : FocusState)
    (hen : st.focus_verification_enabled = true)
    (hexn : env.check_exn = false) (hrexn : env.recovery_exn = false)
    (haexn : env.alt_exn = false)
    (wid : String) (hw : env.app_window = some wid)
    (wi : WindowInfo) (hwi : env.window_info = some wi)
    (hfg : env.fg_initial = false) :
    (env.smart_fg_ok = true → env.fg_after_smart = true →
      ∀ fwi, env.fresh_window_info = some fwi →
      (ensure_target_window_focused env true st).result = true ∧
      (ensure_target_window_focused env true st).state.focus_failure_count = 0 ∧
      (ensure_target_window_focused env true st).state.last_known_position =
        some fwi.geom) ∧
    (env.smart_fg_ok = false → env.focus_cmd_ok = true → env.fg_after_focus = true →
      (ensure_target_window_focused env true st).result = true ∧
      (ensure_target_window_focused env true st).state.focus_failure_count = 0 ∧
      (ensure_target_window_focused env true st).state.last_known_position =
        st.last_known_position) ∧
    (env.smart_fg_ok = false → env.focus_cmd_ok = false →
      ∀ wi2, env.window_info_for_click = some wi2 → env.fg_after_click = true →
      (ensure_target_window_focused env true st).result = true ∧
      (ensure_target_window_focused env true st).state.focus_failure_count = 0 ∧
      (ensure_target_window_focused env true st).state.last_known_position =
        st.last_known_position) := by
  have hbase : ensure_target_window_focused env true st =
      recover_window_focus env
        { st with last_focus_check := env.now, expected_window_id := some wid } 2 := by
    unfold ensure_target_window_focused
    rw [if_neg (by simp [hen]), if_neg (by simp)]
    dsimp only
    rw [if_neg (by simp [hexn]), hw]
    dsimp only
    rw [hwi]
    dsimp only
    rw [if_neg (by simp [hfg])]
  rw [hbase]
  refine ⟨?_, ?_, ?_⟩
  · intro hsm hfgs fwi hfwi
    unfold recover_window_focus
    rw [if_neg (by simp [hrexn])]
    dsimp only
    rw [if_pos hsm, if_pos hfgs]
    unfold refresh_window_coordinates_after_focus
    rw [hfwi]
    dsimp only
    exact ⟨rfl, (update_tracking_fields _ fwi).1, (update_tracking_fields _ fwi).2.2.2⟩
  · intro hsm0 hcmd hfgf
    unfold recover_window_focus
    rw [if_neg (by simp [hrexn])]
    dsimp only
    rw [if_neg (by simp [hsm0])]
    unfold try_alternative_focus_methods
    rw [if_neg (by simp [haexn]), if_pos (by simp [hcmd, hfgf])]
    exact ⟨rfl, rfl, rfl⟩
  · intro hsm0 hcmd0 wi2 hwc hclick
    unfold recover_window_focus
    rw [if_neg (by simp [hrexn])]
    dsimp only
    rw [if_neg (by simp [hsm0])]
    unfold try_alternative_focus_methods
    rw [if_neg (by simp [haexn]), if_neg (by simp [hcmd0])]
    dsimp only
    rw [hwc]
    dsimp only
    rw [if_pos hclick]
    exact ⟨rfl, rfl, rfl⟩

/-- Witness for `focus_recovery_refresh_rule`: the direct-focus-command
recovery returns true, resets the count, and keeps the stale cached
bounds. -/
theorem focus_recovery_refresh_rule_witness :
    (ensure_target_window_focused envFocusCmdOnly true stStale).result = true ∧
    (ensure_target_window_focused envFocusCmdOnly true stStale).state.focus_failure_count = 0 ∧
    (ensure_target_window_focused envFocusCmdOnly true stStale).state.last_known_position =
      stStale.last_known_position :=
  (focus_recovery_refresh_rule envFocusCmdOnly stStale rfl rfl rfl rfl "w" rfl
      { hwnd := 1, geom := ⟨10, 10, 300, 200⟩ } rfl rfl).2.1 rfl rfl rfl

end S14
